import Mathlib

/-! Shallow embedding of the XI Class Admission announcement monitor
(src/app.py): ordinal extraction from filenames, fetch and send modelling,
the session state, the control handlers (start, stop, clear log) and the
monitoring tick. -/

/-- The fixed check interval, `CHECK_INTERVAL_SECONDS = 300` (app.py line 19). -/
def CHECK_INTERVAL_SECONDS : Int := 300

/-- One announcement from the feed payload, with its `filename` and `content`
fields (app.py lines 143-144, 159-160). -/
structure Announcement where
  filename : String
  content : String
  deriving Repr, DecidableEq

/-- A decoded JSON payload. `announcements = none` models a payload whose
decoded body lacks the "announcements" key; `some l` models a payload carrying
the list `l` (app.py line 142). -/
structure Payload where
  announcements : Option (List Announcement)
  deriving Repr, DecidableEq

/-- The Streamlit session state fields the monitor owns
(app.py lines 22-29). -/
structure SessionState where
  monitoring : Bool
  last_known_filename : String
  last_check_time : Int
  log : List String
  deriving Repr, DecidableEq

/-- The initial session state (app.py lines 22-29): not monitoring, baseline
filename "23.txt", last check time 0, empty log. -/
def initState : SessionState :=
  { monitoring := false, last_known_filename := "23.txt", last_check_time := 0, log := [] }

/-- The first maximal run of decimal digits in a character list, mirroring
`re.findall` of digit runs followed by taking element 0 (app.py line 35). -/
def firstDigitRun : List Char → Option (List Char)
  | [] => none
  | c :: cs =>
    if c.isDigit then some ((c :: cs).takeWhile Char.isDigit) else firstDigitRun cs

/-- Decimal value of a run of digit characters, as Python `int` reads it. -/
def digitsToNat (cs : List Char) : Nat :=
  cs.foldl (fun a c => a * 10 + (c.toNat - 48)) 0

/-- `get_numeric_from_filename` (app.py lines 33-36): the integer value of the
first maximal digit run found anywhere in the filename, or 0 if there is none. -/
def get_numeric_from_filename (filename : String) : Nat :=
  match firstDigitRun filename.toList with
  | some run => digitsToNat run
  | none => 0

/-- `fetch_data` (app.py lines 38-46). The network outcome is the argument:
a successful request yields the decoded payload and no toast; any request
exception produces one error toast and `None`. -/
def fetch_data (outcome : Except String Payload) : Option Payload × List String :=
  match outcome with
  | .ok p => (some p, [])
  | .error e => (none, ["Error fetching data: " ++ e])

/-- The SMTP configuration dictionary (app.py lines 87-93). -/
structure SmtpConfig where
  server : String
  port : Nat
  sender_email : String
  password : String
  recipient_email : String
  deriving Repr, DecidableEq

/-- `send_email` (app.py lines 48-66). The SMTP transport outcome is the
argument: on success a sent toast and `True`; on any exception an error
message and `False`. -/
def send_email (subject body : String) (config : SmtpConfig)
    (transport : Except String Unit) : Bool × List String :=
  match transport with
  | .ok _ => (true, ["Notification email sent to " ++ config.recipient_email ++ "!"])
  | .error e => (false, ["Failed to send email: " ++ e])

/-- The "Monitoring started." log entry (app.py line 104). -/
def startedLog (ts : String) : String :=
  "**[" ++ ts ++ "]** Monitoring started."

/-- The "Monitoring stopped." log entry (app.py line 110). -/
def stoppedLog (ts : String) : String :=
  "**[" ++ ts ++ "]** Monitoring stopped."

/-- The "New Announcement Found!" log entry (app.py line 152). -/
def newAnnouncementLog (ts fn : String) : String :=
  "**[" ++ ts ++ "]** :white_check_mark: **New Announcement Found!** Filename: `"
    ++ fn ++ "`. Sending email."

/-- The "No new announcements." log entry (app.py line 168). -/
def noNewLog (ts fn : String) : String :=
  "**[" ++ ts ++ "]** No new announcements. Current latest is still `" ++ fn ++ "`."

/-- The notification email subject (app.py line 155). -/
def emailSubject (fn : String) : String :=
  "New XI Admission Announcement: " ++ fn

/-- The notification email HTML body (app.py lines 156-162). -/
def emailBody (a : Announcement) : String :=
  "<html><body><h2>A new announcement has been posted on the XI Class Admission website.</h2><p><strong>Filename:</strong> "
    ++ a.filename ++ "</p><hr><p><strong>Content:</strong></p><div>" ++ a.content
    ++ "</div></body></html>"

/-- The Start Monitoring button handler (app.py lines 98-105): an empty
recipient or one without an "@" only shows a warning and changes nothing;
otherwise monitoring is turned on, the last check time reset to 0 and a
started entry appended to the log. -/
def start_monitoring (s : SessionState) (recipient_email ts : String) : SessionState :=
  if recipient_email = "" ∨ recipient_email.toList.contains '@' = false then s
  else
    { s with monitoring := true, last_check_time := 0, log := s.log ++ [startedLog ts] }

/-- The Stop Monitoring button handler (app.py lines 108-111). -/
def stop_monitoring (s : SessionState) (ts : String) : SessionState :=
  { s with monitoring := false, log := s.log ++ [stoppedLog ts] }

/-- The Clear Log button handler (app.py lines 114-116). -/
def clear_log (s : SessionState) : SessionState :=
  { s with log := [] }

/-- The environment of one evaluation of the monitoring script body: the
current time, the network outcome the Fetcher would see, the SMTP transport
outcome the Notifier would see, and the formatted timestamp string. -/
structure TickInput where
  now : Int
  fetchOutcome : Except String Payload
  transport : Except String Unit
  ts : String

/-- The observable result of one tick: the updated session state, how many
email sends were attempted, whether a fetch was performed, and the toast or
error messages shown outside the session log. -/
structure TickOutput where
  state : SessionState
  emailsAttempted : Nat
  didFetch : Bool
  toasts : List String
  deriving Repr, DecidableEq

/-- One monitoring tick (app.py lines 130-172): while monitoring, if the
interval has passed, consume the slot by setting the last check time to now,
fetch, and on a payload with at least one announcement compare the latest
ordinal against the last known one, sending an email and advancing the marker
when it is strictly greater, else logging that nothing is new. -/
def tick (config : SmtpConfig) (s : SessionState) (inp : TickInput) : TickOutput :=
  if s.monitoring then
    if CHECK_INTERVAL_SECONDS < inp.now - s.last_check_time then
      let s1 : SessionState := { s with last_check_time := inp.now }
      let fd := fetch_data inp.fetchOutcome
      match fd.1 with
      | none => ⟨s1, 0, true, fd.2⟩
      | some p =>
        match p.announcements with
        | none => ⟨s1, 0, true, fd.2⟩
        | some [] => ⟨s1, 0, true, fd.2⟩
        | some (latest :: _) =>
          if get_numeric_from_filename s1.last_known_filename
              < get_numeric_from_filename latest.filename then
            let s2 : SessionState :=
              { s1 with log := s1.log ++ [newAnnouncementLog inp.ts latest.filename] }
            let res := send_email (emailSubject latest.filename) (emailBody latest)
              config inp.transport
            let s3 : SessionState := { s2 with last_known_filename := latest.filename }
            ⟨s3, 1, true, fd.2 ++ res.2⟩
          else
            ⟨{ s1 with log := s1.log ++ [noNewLog inp.ts latest.filename] }, 0, true, fd.2⟩
    else ⟨s, 0, false, []⟩
  else ⟨s, 0, false, []⟩

/-- The displayed countdown (app.py lines 175-176):
`max(0, last_check_time + CHECK_INTERVAL_SECONDS - now)`. -/
def time_left (s : SessionState) (now : Int) : Int :=
  max 0 (s.last_check_time + CHECK_INTERVAL_SECONDS - now)

/-- The ordinal of the stored last known filename. -/
def ordinal (s : SessionState) : Nat :=
  get_numeric_from_filename s.last_known_filename

/-- Running a sequence of ticks from a state. -/
def runTicks (config : SmtpConfig) (s : SessionState) : List TickInput → SessionState
  | [] => s
  | i :: is => runTicks config (tick config s i).state is

/-! ### Helper lemmas on ordinal extraction -/

theorem firstDigitRun_of_no_digits (cs : List Char) (h : ∀ c ∈ cs, ¬ c.isDigit) :
    firstDigitRun cs = none := by
  induction cs with
  | nil => rfl
  | cons c cs ih =>
    have hc : ¬ c.isDigit := h c (by simp)
    simp only [firstDigitRun, Bool.not_eq_true] at *
    rw [if_neg (by simp [hc])]
    exact ih fun x hx => h x (List.mem_cons_of_mem _ hx)

theorem takeWhile_all_of_head (p : Char → Bool) (run post : List Char)
    (hrun : ∀ c ∈ run, p c) (hpost : ∀ c ∈ post.head?, ¬ p c) :
    (run ++ post).takeWhile p = run := by
  induction run with
  | nil =>
    cases post with
    | nil => rfl
    | cons d ds =>
      have hd : ¬ p d := hpost d (by simp)
      simp [List.takeWhile_cons, hd]
  | cons c cs ih =>
    have hc : p c := hrun c (by simp)
    simp only [List.cons_append, List.takeWhile_cons, hc, if_true]
    rw [ih fun x hx => hrun x (List.mem_cons_of_mem _ hx)]

theorem firstDigitRun_split (pre run post : List Char)
    (hpre : ∀ c ∈ pre, ¬ c.isDigit) (hne : run ≠ [])
    (hrun : ∀ c ∈ run, c.isDigit) (hpost : ∀ c ∈ post.head?, ¬ c.isDigit) :
    firstDigitRun (pre ++ run ++ post) = some run := by
  induction pre with
  | nil =>
    cases run with
    | nil => exact absurd rfl hne
    | cons d ds =>
      have hd : d.isDigit := hrun d (by simp)
      simp only [List.nil_append, List.cons_append, firstDigitRun, hd, if_true]
      have := takeWhile_all_of_head Char.isDigit (d :: ds) post hrun hpost
      simpa using this
  | cons c cs ih =>
    have hc : ¬ c.isDigit := hpre c (by simp)
    simp only [List.cons_append, firstDigitRun]
    rw [if_neg (by simp [hc])]
    exact ih fun x hx => hpre x (List.mem_cons_of_mem _ hx)

/-! ### Claim theorems: ordinal extraction and control handlers -/

/-- C3: `get_numeric_from_filename` is a total function on strings returning
the integer value of the first maximal run of decimal digits anywhere in the
identifier, 0 when there are no digits; it maps "23.txt" to 23,
"notice_45_final.pdf" to 45 and "noNumbers" to 0. -/
theorem c3_get_numeric_first_digit_run :
    (∀ f : String, (∀ c ∈ f.toList, ¬ c.isDigit) → get_numeric_from_filename f = 0)
  ∧ (∀ (f : String) (pre run post : List Char), f.toList = pre ++ run ++ post →
      (∀ c ∈ pre, ¬ c.isDigit) → run ≠ [] → (∀ c ∈ run, c.isDigit) →
      (∀ c ∈ post.head?, ¬ c.isDigit) →
      get_numeric_from_filename f = digitsToNat run)
  ∧ get_numeric_from_filename "23.txt" = 23
  ∧ get_numeric_from_filename "notice_45_final.pdf" = 45
  ∧ get_numeric_from_filename "noNumbers" = 0 := by
  refine ⟨?_, ?_, by decide, by decide, by decide⟩
  · intro f h
    unfold get_numeric_from_filename
    rw [firstDigitRun_of_no_digits _ h]
  · intro f pre run post hsplit hpre hne hrun hpost
    unfold get_numeric_from_filename
    rw [hsplit, firstDigitRun_split pre run post hpre hne hrun hpost]

/-- Witness for C3 at concrete inputs. -/
theorem c3_witness :
    get_numeric_from_filename "noNumbers" = 0
  ∧ get_numeric_from_filename "notice_45_final.pdf" = digitsToNat ['4', '5'] := by
  constructor
  · exact c3_get_numeric_first_digit_run.1 "noNumbers" (by decide)
  · exact c3_get_numeric_first_digit_run.2.1 "notice_45_final.pdf"
      ['n', 'o', 't', 'i', 'c', 'e', '_'] ['4', '5']
      ['_', 'f', 'i', 'n', 'a', 'l', '.', 'p', 'd', 'f']
      (by decide) (by decide) (by decide) (by decide) (by decide)

/-- C9: clearing the log empties it and changes no other field, in either
state, monitoring or not. -/
theorem c9_clear_log (s : SessionState) :
    (clear_log s).log = []
  ∧ (clear_log s).monitoring = s.monitoring
  ∧ (clear_log s).last_known_filename = s.last_known_filename
  ∧ (clear_log s).last_check_time = s.last_check_time := by
  refine ⟨rfl, rfl, rfl, rfl⟩

/-! ### Helper lemmas on the tick branches -/

theorem tick_not_monitoring (config : SmtpConfig) (s : SessionState) (inp : TickInput)
    (h : s.monitoring = false) : tick config s inp = ⟨s, 0, false, []⟩ := by
  simp [tick, h]

theorem tick_interval_not_passed (config : SmtpConfig) (s : SessionState) (inp : TickInput)
    (hrun : s.monitoring = true)
    (h : inp.now - s.last_check_time ≤ CHECK_INTERVAL_SECONDS) :
    tick config s inp = ⟨s, 0, false, []⟩ := by
  simp only [tick, hrun, if_true]
  rw [if_neg (not_lt.mpr h)]

theorem tick_fetch_failure (config : SmtpConfig) (s : SessionState) (inp : TickInput)
    (e : String) (hrun : s.monitoring = true)
    (htime : CHECK_INTERVAL_SECONDS < inp.now - s.last_check_time)
    (hfetch : inp.fetchOutcome = .error e) :
    tick config s inp =
      ⟨{ s with last_check_time := inp.now }, 0, true, ["Error fetching data: " ++ e]⟩ := by
  simp only [tick, hrun, if_true, hfetch]
  rw [if_pos htime]
  rfl

theorem tick_no_announcements_key (config : SmtpConfig) (s : SessionState) (inp : TickInput)
    (p : Payload) (hrun : s.monitoring = true)
    (htime : CHECK_INTERVAL_SECONDS < inp.now - s.last_check_time)
    (hfetch : inp.fetchOutcome = .ok p) (hann : p.announcements = none) :
    tick config s inp = ⟨{ s with last_check_time := inp.now }, 0, true, []⟩ := by
  simp only [tick, hrun, if_true, hfetch]
  rw [if_pos htime]
  simp [fetch_data, hann]

theorem tick_empty_announcements (config : SmtpConfig) (s : SessionState) (inp : TickInput)
    (p : Payload) (hrun : s.monitoring = true)
    (htime : CHECK_INTERVAL_SECONDS < inp.now - s.last_check_time)
    (hfetch : inp.fetchOutcome = .ok p) (hann : p.announcements = some []) :
    tick config s inp = ⟨{ s with last_check_time := inp.now }, 0, true, []⟩ := by
  simp only [tick, hrun, if_true, hfetch]
  rw [if_pos htime]
  simp [fetch_data, hann]

theorem tick_new_announcement (config : SmtpConfig) (s : SessionState) (inp : TickInput)
    (p : Payload) (latest : Announcement) (rest : List Announcement)
    (hrun : s.monitoring = true)
    (htime : CHECK_INTERVAL_SECONDS < inp.now - s.last_check_time)
    (hfetch : inp.fetchOutcome = .ok p) (hann : p.announcements = some (latest :: rest))
    (hnew : get_numeric_from_filename s.last_known_filename
      < get_numeric_from_filename latest.filename) :
    tick config s inp =
      ⟨{ s with
          last_check_time := inp.now,
          last_known_filename := latest.filename,
          log := s.log ++ [newAnnouncementLog inp.ts latest.filename] }, 1, true,
        (send_email (emailSubject latest.filename) (emailBody latest) config inp.transport).2⟩ := by
  simp only [tick, hrun, if_true, hfetch]
  rw [if_pos htime]
  simp only [fetch_data]
  rw [hann]
  simp only []
  rw [if_pos hnew]
  rfl

theorem tick_no_new_announcement (config : SmtpConfig) (s : SessionState) (inp : TickInput)
    (p : Payload) (latest : Announcement) (rest : List Announcement)
    (hrun : s.monitoring = true)
    (htime : CHECK_INTERVAL_SECONDS < inp.now - s.last_check_time)
    (hfetch : inp.fetchOutcome = .ok p) (hann : p.announcements = some (latest :: rest))
    (hold : get_numeric_from_filename latest.filename
      ≤ get_numeric_from_filename s.last_known_filename) :
    tick config s inp =
      ⟨{ s with
          last_check_time := inp.now,
          log := s.log ++ [noNewLog inp.ts latest.filename] }, 0, true, []⟩ := by
  simp only [tick, hrun, if_true, hfetch]
  rw [if_pos htime]
  simp only [fetch_data]
  rw [hann]
  simp only []
  rw [if_neg (not_lt.mpr hold)]

theorem tick_didFetch (config : SmtpConfig) (s : SessionState) (inp : TickInput)
    (hrun : s.monitoring = true)
    (htime : CHECK_INTERVAL_SECONDS < inp.now - s.last_check_time) :
    (tick config s inp).didFetch = true := by
  cases hfo : inp.fetchOutcome with
  | error e => rw [tick_fetch_failure config s inp e hrun htime hfo]
  | ok p =>
    cases hann : p.announcements with
    | none => rw [tick_no_announcements_key config s inp p hrun htime hfo hann]
    | some l =>
      cases l with
      | nil => rw [tick_empty_announcements config s inp p hrun htime hfo hann]
      | cons latest rest =>
        by_cases hnew : get_numeric_from_filename s.last_known_filename
            < get_numeric_from_filename latest.filename
        · rw [tick_new_announcement config s inp p latest rest hrun htime hfo hann hnew]
        · rw [tick_no_new_announcement config s inp p latest rest hrun htime hfo hann
            (not_lt.mp hnew)]

/-! ### Claim theorems: the monitoring tick -/

/-- C1: on a tick where the fetch succeeds, the announcement list is non-empty
and the latest ordinal strictly exceeds the last known one, exactly one email
send is attempted, a new-announcement log entry is appended, and the stored
marker carries that latest ordinal afterwards, whatever the send outcome. -/
theorem c1_new_announcement_tick (config : SmtpConfig) (s : SessionState) (inp : TickInput)
    (p : Payload) (latest : Announcement) (rest : List Announcement)
    (hrun : s.monitoring = true)
    (htime : CHECK_INTERVAL_SECONDS < inp.now - s.last_check_time)
    (hfetch : inp.fetchOutcome = .ok p)
    (hann : p.announcements = some (latest :: rest))
    (hnew : ordinal s < get_numeric_from_filename latest.filename) :
    (tick config s inp).emailsAttempted = 1
  ∧ (tick config s inp).state.log = s.log ++ [newAnnouncementLog inp.ts latest.filename]
  ∧ (tick config s inp).state.last_known_filename = latest.filename
  ∧ ordinal (tick config s inp).state = get_numeric_from_filename latest.filename
  ∧ (∀ t : Except String Unit,
      (tick config s { inp with transport := t }).state = (tick config s inp).state
      ∧ (tick config s { inp with transport := t }).emailsAttempted
          = (tick config s inp).emailsAttempted) := by
  have h := tick_new_announcement config s inp p latest rest hrun htime hfetch hann hnew
  refine ⟨by rw [h], by rw [h], by rw [h], by rw [h]; rfl, ?_⟩
  intro t
  have h2 := tick_new_announcement config s { inp with transport := t } p latest rest
    hrun htime hfetch hann hnew
  rw [h, h2]
  exact ⟨rfl, rfl⟩

/-- Witness for C1: baseline 23, latest "24.txt", failing transport; one send
attempted and the marker becomes "24.txt". -/
theorem c1_witness :
    (tick ⟨"srv", 465, "sender@x", "pw", "rcpt@y"⟩
        { monitoring := true, last_known_filename := "23.txt", last_check_time := 0, log := [] }
        ⟨301, Except.ok ⟨some [⟨"24.txt", "body"⟩]⟩, Except.error "refused", "ts"⟩).emailsAttempted = 1
  ∧ (tick ⟨"srv", 465, "sender@x", "pw", "rcpt@y"⟩
        { monitoring := true, last_known_filename := "23.txt", last_check_time := 0, log := [] }
        ⟨301, Except.ok ⟨some [⟨"24.txt", "body"⟩]⟩, Except.error "refused", "ts"⟩).state.last_known_filename
      = "24.txt" := by
  have h := c1_new_announcement_tick ⟨"srv", 465, "sender@x", "pw", "rcpt@y"⟩
    { monitoring := true, last_known_filename := "23.txt", last_check_time := 0, log := [] }
    ⟨301, Except.ok ⟨some [⟨"24.txt", "body"⟩]⟩, Except.error "refused", "ts"⟩
    ⟨some [⟨"24.txt", "body"⟩]⟩ ⟨"24.txt", "body"⟩ []
    rfl (by decide) rfl rfl (by decide)
  exact ⟨h.1, h.2.2.1⟩

/-- C4: on a tick where the fetch succeeds with a non-empty list whose latest
ordinal is at most the last known one, no send is attempted, the marker is
unchanged and a no-new-announcements entry is appended to the log. -/
theorem c4_no_new_tick (config : SmtpConfig) (s : SessionState) (inp : TickInput)
    (p : Payload) (latest : Announcement) (rest : List Announcement)
    (hrun : s.monitoring = true)
    (htime : CHECK_INTERVAL_SECONDS < inp.now - s.last_check_time)
    (hfetch : inp.fetchOutcome = .ok p)
    (hann : p.announcements = some (latest :: rest))
    (hold : get_numeric_from_filename latest.filename ≤ ordinal s) :
    (tick config s inp).emailsAttempted = 0
  ∧ (tick config s inp).state.last_known_filename = s.last_known_filename
  ∧ ordinal (tick config s inp).state = ordinal s
  ∧ (tick config s inp).state.log = s.log ++ [noNewLog inp.ts latest.filename] := by
  have h := tick_no_new_announcement config s inp p latest rest hrun htime hfetch hann hold
  exact ⟨by rw [h], by rw [h], by rw [h]; rfl, by rw [h]⟩

/-- Witness for C4: baseline 24, latest "24.txt"; zero sends, marker stays. -/
theorem c4_witness :
    (tick ⟨"srv", 465, "sender@x", "pw", "rcpt@y"⟩
        { monitoring := true, last_known_filename := "24.txt", last_check_time := 0, log := [] }
        ⟨301, Except.ok ⟨some [⟨"24.txt", "body"⟩]⟩, Except.ok (), "ts"⟩).emailsAttempted = 0
  ∧ (tick ⟨"srv", 465, "sender@x", "pw", "rcpt@y"⟩
        { monitoring := true, last_known_filename := "24.txt", last_check_time := 0, log := [] }
        ⟨301, Except.ok ⟨some [⟨"24.txt", "body"⟩]⟩, Except.ok (), "ts"⟩).state.last_known_filename
      = "24.txt" := by
  have h := c4_no_new_tick ⟨"srv", 465, "sender@x", "pw", "rcpt@y"⟩
    { monitoring := true, last_known_filename := "24.txt", last_check_time := 0, log := [] }
    ⟨301, Except.ok ⟨some [⟨"24.txt", "body"⟩]⟩, Except.ok (), "ts"⟩
    ⟨some [⟨"24.txt", "body"⟩]⟩ ⟨"24.txt", "body"⟩ []
    rfl (by decide) rfl rfl (by decide)
  exact ⟨h.1, h.2.1⟩

/-- C5: on a tick where the fetch fails, exactly one message is produced (the
fetcher's own error notice), no send is attempted, the session log and marker
are unchanged, and the next check is due exactly CHECK_INTERVAL_SECONDS after
this tick's attempt time, since the last check time was set to now before the
fetch. -/
theorem c5_fetch_failure_tick (config : SmtpConfig) (s : SessionState) (inp : TickInput)
    (e : String) (hrun : s.monitoring = true)
    (htime : CHECK_INTERVAL_SECONDS < inp.now - s.last_check_time)
    (hfetch : inp.fetchOutcome = .error e) :
    (tick config s inp).emailsAttempted = 0
  ∧ (tick config s inp).toasts = ["Error fetching data: " ++ e]
  ∧ (tick config s inp).state.log = s.log
  ∧ (tick config s inp).state.last_known_filename = s.last_known_filename
  ∧ (tick config s inp).state.last_check_time = inp.now
  ∧ (∀ t : Int, time_left (tick config s inp).state t
      = max 0 (inp.now + CHECK_INTERVAL_SECONDS - t)) := by
  have h := tick_fetch_failure config s inp e hrun htime hfetch
  exact ⟨by rw [h], by rw [h], by rw [h], by rw [h], by rw [h],
    fun t => by rw [h]; rfl⟩

/-- Witness for C5 at a concrete failing fetch. -/
theorem c5_witness :
    (tick ⟨"srv", 465, "sender@x", "pw", "rcpt@y"⟩
        { monitoring := true, last_known_filename := "23.txt", last_check_time := 0, log := [] }
        ⟨301, Except.error "timeout", Except.ok (), "ts"⟩).emailsAttempted = 0
  ∧ (tick ⟨"srv", 465, "sender@x", "pw", "rcpt@y"⟩
        { monitoring := true, last_known_filename := "23.txt", last_check_time := 0, log := [] }
        ⟨301, Except.error "timeout", Except.ok (), "ts"⟩).toasts
      = ["Error fetching data: " ++ "timeout"]
  ∧ (tick ⟨"srv", 465, "sender@x", "pw", "rcpt@y"⟩
        { monitoring := true, last_known_filename := "23.txt", last_check_time := 0, log := [] }
        ⟨301, Except.error "timeout", Except.ok (), "ts"⟩).state.last_check_time = 301 := by
  have h := c5_fetch_failure_tick ⟨"srv", 465, "sender@x", "pw", "rcpt@y"⟩
    { monitoring := true, last_known_filename := "23.txt", last_check_time := 0, log := [] }
    ⟨301, Except.error "timeout", Except.ok (), "ts"⟩ "timeout"
    rfl (by decide) rfl
  exact ⟨h.1, h.2.1, h.2.2.2.2.1⟩

/-- C6: a tick evaluated while monitoring with elapsed time not exceeding the
interval performs no fetch and mutates nothing: the whole output is the
unchanged state with zero sends, no fetch and no toasts; the countdown is
max(0, last check time + interval - now). -/
theorem c6_no_fetch_tick (config : SmtpConfig) (s : SessionState) (inp : TickInput)
    (hrun : s.monitoring = true)
    (htime : inp.now - s.last_check_time ≤ CHECK_INTERVAL_SECONDS) :
    tick config s inp = ⟨s, 0, false, []⟩
  ∧ time_left s inp.now = max 0 (s.last_check_time + CHECK_INTERVAL_SECONDS - inp.now) :=
  ⟨tick_interval_not_passed config s inp hrun htime, rfl⟩

/-- Witness for C6: a tick 100 time units after a check changes nothing. -/
theorem c6_witness :
    tick ⟨"srv", 465, "sender@x", "pw", "rcpt@y"⟩
        { monitoring := true, last_known_filename := "24.txt", last_check_time := 50, log := [] }
        ⟨150, Except.ok ⟨some [⟨"99.txt", "c"⟩]⟩, Except.ok (), "ts"⟩
      = ⟨{ monitoring := true, last_known_filename := "24.txt", last_check_time := 50, log := [] },
          0, false, []⟩ :=
  (c6_no_fetch_tick ⟨"srv", 465, "sender@x", "pw", "rcpt@y"⟩
    { monitoring := true, last_known_filename := "24.txt", last_check_time := 50, log := [] }
    ⟨150, Except.ok ⟨some [⟨"99.txt", "c"⟩]⟩, Except.ok (), "ts"⟩
    rfl (by decide)).1

/-- C8: on a tick where the fetch succeeds but the payload has no
announcements key or an empty list, nothing happens beyond consuming the time
slot: no send, no new log entry, no toast, marker unchanged; the tick is a
total function so no element access can fail. -/
theorem c8_empty_payload_tick (config : SmtpConfig) (s : SessionState) (inp : TickInput)
    (p : Payload) (hrun : s.monitoring = true)
    (htime : CHECK_INTERVAL_SECONDS < inp.now - s.last_check_time)
    (hfetch : inp.fetchOutcome = .ok p)
    (hann : p.announcements = none ∨ p.announcements = some []) :
    tick config s inp = ⟨{ s with last_check_time := inp.now }, 0, true, []⟩
  ∧ (tick config s inp).emailsAttempted = 0
  ∧ (tick config s inp).state.log = s.log
  ∧ (tick config s inp).state.last_known_filename = s.last_known_filename := by
  have h : tick config s inp = ⟨{ s with last_check_time := inp.now }, 0, true, []⟩ := by
    rcases hann with h1 | h1
    · exact tick_no_announcements_key config s inp p hrun htime hfetch h1
    · exact tick_empty_announcements config s inp p hrun htime hfetch h1
  exact ⟨h, by rw [h], by rw [h], by rw [h]⟩

/-- Witness for C8 at a concrete empty announcement list. -/
theorem c8_witness :
    tick ⟨"srv", 465, "sender@x", "pw", "rcpt@y"⟩
        { monitoring := true, last_known_filename := "23.txt", last_check_time := 0, log := [] }
        ⟨301, Except.ok ⟨some []⟩, Except.ok (), "ts"⟩
      = ⟨{ monitoring := true, last_known_filename := "23.txt", last_check_time := 301, log := [] },
          0, true, []⟩ :=
  (c8_empty_payload_tick ⟨"srv", 465, "sender@x", "pw", "rcpt@y"⟩
    { monitoring := true, last_known_filename := "23.txt", last_check_time := 0, log := [] }
    ⟨301, Except.ok ⟨some []⟩, Except.ok (), "ts"⟩ ⟨some []⟩
    rfl (by decide) rfl (Or.inr rfl)).1

/-! ### Claim theorems: control operations -/

/-- C7: starting with an empty recipient or one without an "@" changes no
state field (so a STOPPED state stays STOPPED); starting with "a@b.com" turns
monitoring on, resets the last check time to the never value 0 so a tick at
any time past the interval fetches immediately, and appends a started entry. -/
theorem c7_start_validation :
    (∀ s ts, start_monitoring s "" ts = s)
  ∧ (∀ s r ts, r.toList.contains '@' = false → start_monitoring s r ts = s)
  ∧ (∀ s ts, start_monitoring s "a@b.com" ts =
      { s with monitoring := true, last_check_time := 0, log := s.log ++ [startedLog ts] })
  ∧ (∀ (config : SmtpConfig) (s : SessionState) (ts : String) (inp : TickInput),
      CHECK_INTERVAL_SECONDS < inp.now →
      (tick config (start_monitoring s "a@b.com" ts) inp).didFetch = true) := by
  have hok : ∀ s ts, start_monitoring s "a@b.com" ts =
      { s with monitoring := true, last_check_time := 0, log := s.log ++ [startedLog ts] } := by
    intro s ts
    simp only [start_monitoring]
    rw [if_neg (by decide)]
  refine ⟨?_, ?_, hok, ?_⟩
  · intro s ts
    simp [start_monitoring]
  · intro s r ts h
    simp only [start_monitoring]
    rw [if_pos (Or.inr h)]
  · intro config s ts inp h
    rw [hok s ts]
    exact tick_didFetch config _ inp rfl (by simpa using h)

/-- Witness for C7 at concrete recipients. -/
theorem c7_witness :
    start_monitoring initState "no-at-sign" "ts" = initState
  ∧ (start_monitoring initState "a@b.com" "ts").monitoring = true := by
  constructor
  · exact c7_start_validation.2.1 initState "no-at-sign" "ts" (by decide)
  · rw [c7_start_validation.2.2.1 initState "ts"]

/-- C10: stop only turns monitoring off and appends a stopped entry; a valid
start only turns monitoring on, resets the last check time and appends a
started entry; in particular the stored filename survives both, existing log
entries are never deleted, and start behaves this way from any state,
monitoring or not. -/
theorem c10_stop_start_preserve (s : SessionState) (r ts1 ts2 : String)
    (hne : r ≠ "") (hr : r.toList.contains '@' = true) :
    stop_monitoring s ts1 =
      { s with monitoring := false, log := s.log ++ [stoppedLog ts1] }
  ∧ (stop_monitoring s ts1).last_known_filename = s.last_known_filename
  ∧ (stop_monitoring s ts1).last_check_time = s.last_check_time
  ∧ start_monitoring s r ts2 =
      { s with monitoring := true, last_check_time := 0, log := s.log ++ [startedLog ts2] }
  ∧ (start_monitoring s r ts2).last_known_filename = s.last_known_filename
  ∧ start_monitoring (stop_monitoring s ts1) r ts2 =
      { s with
          monitoring := true,
          last_check_time := 0,
          log := (s.log ++ [stoppedLog ts1]) ++ [startedLog ts2] } := by
  have hcond : ¬(r = "" ∨ r.toList.contains '@' = false) := by
    rintro (h | h)
    · exact hne h
    · rw [hr] at h
      exact Bool.noConfusion h
  have hstart : ∀ u : SessionState, start_monitoring u r ts2 =
      { u with monitoring := true, last_check_time := 0, log := u.log ++ [startedLog ts2] } := by
    intro u
    simp only [start_monitoring]
    rw [if_neg hcond]
  refine ⟨rfl, rfl, rfl, hstart s, by rw [hstart s], ?_⟩
  rw [hstart (stop_monitoring s ts1)]
  rfl

/-- Witness for C10 at the initial state. -/
theorem c10_witness :
    stop_monitoring initState "t1" =
      { initState with monitoring := false, log := [stoppedLog "t1"] }
  ∧ (start_monitoring initState "a@b.com" "t2").last_known_filename = "23.txt" := by
  have h := c10_stop_start_preserve initState "a@b.com" "t1" "t2" (by decide) (by decide)
  exact ⟨h.1, h.2.2.2.2.1⟩

/-! ### Helper lemmas for marker monotonicity -/

theorem tick_ordinal_mono (config : SmtpConfig) (s : SessionState) (inp : TickInput) :
    ordinal s ≤ ordinal (tick config s inp).state := by
  cases hrun : s.monitoring with
  | false =>
    rw [tick_not_monitoring config s inp hrun]
  | true =>
    by_cases htime : CHECK_INTERVAL_SECONDS < inp.now - s.last_check_time
    · cases hfo : inp.fetchOutcome with
      | error e =>
        rw [tick_fetch_failure config s inp e hrun htime hfo]
        exact le_refl _
      | ok p =>
        cases hann : p.announcements with
        | none =>
          rw [tick_no_announcements_key config s inp p hrun htime hfo hann]
          exact le_refl _
        | some l =>
          cases l with
          | nil =>
            rw [tick_empty_announcements config s inp p hrun htime hfo hann]
            exact le_refl _
          | cons latest rest =>
            by_cases hnew : get_numeric_from_filename s.last_known_filename
                < get_numeric_from_filename latest.filename
            · rw [tick_new_announcement config s inp p latest rest hrun htime hfo hann hnew]
              exact le_of_lt hnew
            · rw [tick_no_new_announcement config s inp p latest rest hrun htime hfo hann
                (not_lt.mp hnew)]
              exact le_refl _
    · rw [tick_interval_not_passed config s inp hrun (not_lt.mp htime)]

theorem tick_filename_change (config : SmtpConfig) (s : SessionState) (inp : TickInput)
    (hch : (tick config s inp).state.last_known_filename ≠ s.last_known_filename) :
    ∃ p latest rest, inp.fetchOutcome = .ok p ∧ p.announcements = some (latest :: rest)
      ∧ ordinal s < get_numeric_from_filename latest.filename
      ∧ (tick config s inp).state.last_known_filename = latest.filename := by
  cases hrun : s.monitoring with
  | false =>
    rw [tick_not_monitoring config s inp hrun] at hch
    exact absurd rfl hch
  | true =>
    by_cases htime : CHECK_INTERVAL_SECONDS < inp.now - s.last_check_time
    · cases hfo : inp.fetchOutcome with
      | error e =>
        rw [tick_fetch_failure config s inp e hrun htime hfo] at hch
        exact absurd rfl hch
      | ok p =>
        cases hann : p.announcements with
        | none =>
          rw [tick_no_announcements_key config s inp p hrun htime hfo hann] at hch
          exact absurd rfl hch
        | some l =>
          cases l with
          | nil =>
            rw [tick_empty_announcements config s inp p hrun htime hfo hann] at hch
            exact absurd rfl hch
          | cons latest rest =>
            by_cases hnew : get_numeric_from_filename s.last_known_filename
                < get_numeric_from_filename latest.filename
            · refine ⟨p, latest, rest, rfl, hann, hnew, ?_⟩
              rw [tick_new_announcement config s inp p latest rest hrun htime hfo hann hnew]
            · rw [tick_no_new_announcement config s inp p latest rest hrun htime hfo hann
                (not_lt.mp hnew)] at hch
              exact absurd rfl hch
    · rw [tick_interval_not_passed config s inp hrun (not_lt.mp htime)] at hch
      exact absurd rfl hch

/-- C2: across any sequence of ticks the ordinal of the stored last known
filename never decreases, and the stored filename changes in a tick only when
a fetched latest announcement with a strictly greater ordinal was observed,
in which case it becomes that filename. -/
theorem c2_marker_monotone (config : SmtpConfig) :
    (∀ (s : SessionState) (inps : List TickInput),
      ordinal s ≤ ordinal (runTicks config s inps))
  ∧ (∀ (s : SessionState) (inp : TickInput),
      ordinal s ≤ ordinal (tick config s inp).state)
  ∧ (∀ (s : SessionState) (inp : TickInput),
      (tick config s inp).state.last_known_filename ≠ s.last_known_filename →
      ∃ p latest rest, inp.fetchOutcome = .ok p ∧ p.announcements = some (latest :: rest)
        ∧ ordinal s < get_numeric_from_filename latest.filename
        ∧ (tick config s inp).state.last_known_filename = latest.filename) := by
  refine ⟨?_, tick_ordinal_mono config, tick_filename_change config⟩
  intro s inps
  induction inps generalizing s with
  | nil => exact le_refl _
  | cons i is ih => exact le_trans (tick_ordinal_mono config s i) (ih _)

/-- Witness for C2: a concrete run where the marker changes to the observed
strictly greater filename, via the change characterization. -/
theorem c2_witness :
    (tick ⟨"srv", 465, "sender@x", "pw", "rcpt@y"⟩
        { monitoring := true, last_known_filename := "23.txt", last_check_time := 0, log := [] }
        ⟨301, Except.ok ⟨some [⟨"25.txt", "c"⟩]⟩, Except.ok (), "ts"⟩).state.last_known_filename
      = "25.txt" := by
  obtain ⟨p, latest, rest, h1, h2, -, h4⟩ :=
    (c2_marker_monotone ⟨"srv", 465, "sender@x", "pw", "rcpt@y"⟩).2.2
      { monitoring := true, last_known_filename := "23.txt", last_check_time := 0, log := [] }
      ⟨301, Except.ok ⟨some [⟨"25.txt", "c"⟩]⟩, Except.ok (), "ts"⟩ (by decide)
  rw [h4]
  injection h1 with h1
  rw [← h1] at h2
  injection h2 with h2
  injection h2 with h2 h3
  rw [← h2]
